import Mathlib

/-!
Verification of the dnsquest iterative DNS resolver
(`src/dnsquest/resolver.py`, class `DNSQuestResolver`).

The resolver walks the DNS delegation hierarchy itself: for a
(name, type, server-list) triple it queries the candidate servers in
order, classifies each response (answer / CNAME / glue / NS referral /
SOA-only / negative), and either returns a final answer, recurses on a
new server set, or raises one of four classified failures
(`NXDomainError`, `TimeoutError`, `NoRecordError`, `DNSResolutionError`).

The embedding below follows `resolver.py` line by line.  The network is
abstracted as a deterministic `Transport` function (the spec's Transport
Collaborator): this is the external collaborator boundary drawn by the
spec.  Python's unbounded recursion is rendered with an explicit fuel
parameter: a recursive call consumes one unit of fuel, and `none` means
the computation did not complete within the given recursion budget
(the Python original has no such budget; exhausted fuel corresponds to
it still running).  `some` outcomes are budget-independent once reached.
-/

namespace DNSQuest

/-- Resource record types that occur in `resolver.py`
(`dns.rdatatype.A / CNAME / NS / SOA`); `other` stands for any further
rdata type (TXT, MX, ...), which the resolver never inspects by name. -/
inductive RType where
  | a
  | cname
  | ns
  | soa
  | other
deriving DecidableEq, Repr

/-- One rdata: an A rdata carries `rr.address`, CNAME and NS rdatas carry
`rr.target`, SOA carries neither; `junk` is rdata exposing neither field.
Accessing a missing field in Python raises `AttributeError`, modelled by
the `Option`-valued accessors below. -/
inductive RData where
  | a (address : String)
  | cname (target : String)
  | ns (target : String)
  | soa
  | junk
deriving DecidableEq, Repr

/-- Accessor for `rr.address` — present only on A rdata. -/
def RData.addressOf : RData → Option String
  | .a addr => some addr
  | _ => none

/-- Accessor for `str(rr.target)` — present on CNAME and NS rdata. -/
def RData.targetOf : RData → Option String
  | .cname t => some t
  | .ns t => some t
  | _ => none

/-- An rrset as dnspython exposes it: a declared `rdtype` and a list of
rdatas (which a hostile server need not keep consistent with `rdtype`). -/
structure RRset where
  rdtype : RType
  records : List RData
deriving DecidableEq, Repr

/-- Response status codes distinguished by the resolver: it only ever
tests `response.rcode() == dns.rcode.NXDOMAIN` (line 87). -/
inductive Rcode where
  | noerror
  | nxdomain
  | servfail
deriving DecidableEq, Repr

/-- A parsed DNS response: status code plus the answer, authority and
additional sections (spec §3, "Response"). -/
structure Response where
  rcode : Rcode
  answer : List RRset
  authority : List RRset
  additional : List RRset
deriving DecidableEq, Repr

/-- What one UDP query to one server can produce: a parsed response, a
`dns.exception.Timeout`, or any other transport-level error
(socket errors etc., caught by the bare `except Exception` at line 167). -/
inductive TransportResult where
  | response (r : Response)
  | timeout
  | transportError
deriving DecidableEq, Repr

/-- The deterministic Transport Collaborator (spec §6): query name,
query type and server address determine the result of one UDP query. -/
def Transport : Type := String → RType → String → TransportResult

/-- The four failure classes of `resolver.py`
(`NXDomainError`, `TimeoutError`, `NoRecordError`, and the generic
`DNSResolutionError`). -/
inductive DNSError where
  | nxdomain
  | timeout
  | noRecord
  | resolutionFailed
deriving DecidableEq, Repr

/-- Spec §3 `ResolutionOutcome`: a final answer `Response` or a
classified failure. -/
inductive ResolutionOutcome where
  | answer (r : Response)
  | failure (e : DNSError)
deriving DecidableEq, Repr

/-- The fixed root-hint list `DNSQuestResolver.ROOT_SERVERS`
(lines 38–52): a class-level constant that nothing in the module ever
reassigns or mutates. -/
def ROOT_SERVERS : List String :=
  [ "198.41.0.4"
  , "170.247.170.2"
  , "192.33.4.12"
  , "199.7.91.13"
  , "192.203.230.10"
  , "192.5.5.241"
  , "192.112.36.4"
  , "198.97.190.53"
  , "192.36.148.17"
  , "192.58.128.30"
  , "193.0.14.129"
  , "199.7.83.42"
  , "202.12.27.33" ]

/-- Exhaustion classification (lines 171–182): after the server loop,
raise the saved `TimeoutError` if one was recorded and no server
responded; else `NoRecordError` if at least one server responded; else
the generic `DNSResolutionError`. -/
def exhaustErr (sawTimeout sawResponse : Bool) : DNSError :=
  if sawTimeout && !sawResponse then .timeout
  else if sawResponse then .noRecord
  else .resolutionFailed

/-- Result of the answer-section loop (lines 91–99): the first rrset
typed CNAME wins (chase `rrset[0].target`), else the first rrset of the
requested type wins (return the response); a CNAME rrset whose first
rdata is missing or lacks `.target` raises in Python (`IndexError` /
`AttributeError`), caught by the outer `except Exception` — `malformed`. -/
inductive AnswerCase where
  | success
  | chase (target : String)
  | malformed
  | fallthrough
deriving DecidableEq, Repr

/-- The value `rrset[0].target` of a CNAME-typed rrset, `none` on the
Python exception cases. -/
def firstTarget (rs : RRset) : Option String :=
  rs.records.head? >>= RData.targetOf

/-- The answer-section loop, lines 91–99:
`for rrset in response.answer: if rdtype == CNAME: chase; elif rdtype ==
qtype: return response`.  An empty answer section (`if response.answer:`
false) falls through exactly like a loop that matched nothing. -/
def answerLoop (qtype : RType) : List RRset → AnswerCase
  | [] => .fallthrough
  | rs :: rest =>
    if rs.rdtype = .cname then
      match firstTarget rs with
      | none => .malformed
      | some t => .chase t
    else if rs.rdtype = qtype then .success
    else answerLoop qtype rest

/-- List comprehension `[rr.address for rr in rrset]`: all-or-exception
extraction of the addresses of one rrset (an rdata without `.address` aborts with
`AttributeError`). -/
def addrsOfRecords : List RData → Option (List String)
  | [] => some []
  | r :: rest =>
    match RData.addressOf r with
    | none => none
    | some addr => (addrsOfRecords rest).map (fun t => addr :: t)

/-- List comprehension `[str(rr.target) for rr in rrset]`:
all-or-exception extraction of the targets of one rrset. -/
def targetsOfRecords : List RData → Option (List String)
  | [] => some []
  | r :: rest =>
    match RData.targetOf r with
    | none => none
    | some t => (targetsOfRecords rest).map (fun ts => t :: ts)

/-- The additional-section glue loop, lines 102–106: collect the
addresses of every A-typed rrset of the additional section, in order;
`none` models the Python exception aborting the whole server iteration
(the partially built local `next_servers` is discarded). -/
def glueLoop : List RRset → Option (List String)
  | [] => some []
  | rs :: rest =>
    if rs.rdtype = .a then
      match addrsOfRecords rs.records with
      | none => none
      | some addrs => (glueLoop rest).map (fun t => addrs ++ t)
    else glueLoop rest

/-- Result of the authority-section loop (lines 112–124). -/
inductive AuthCase where
  | raiseNoRecord
  | nsNames (names : List String)
  | nothing
  | malformed
deriving DecidableEq, Repr

/-- The authority-section loop, lines 112–126: scan rrsets in order; an
NS rrset sets `ns_records_found` and extends `ns_names`; an SOA rrset
raises `NoRecordError` when no NS rrset was seen *so far* and the
requested type is A; after the loop, nonempty `ns_names` selects the
referral branch, otherwise fall through. -/
def authorityLoop (qtype : RType) (found : Bool) (acc : List String) :
    List RRset → AuthCase
  | [] => if acc.isEmpty then .nothing else .nsNames acc
  | rs :: rest =>
    if rs.rdtype = .ns then
      match targetsOfRecords rs.records with
      | none => .malformed
      | some ts => authorityLoop qtype true (acc ++ ts) rest
    else if rs.rdtype = .soa then
      if !found && qtype = .a then .raiseNoRecord
      else authorityLoop qtype found acc rest
    else authorityLoop qtype found acc rest

/-- Lines 135–140: harvest the addresses of the A-typed rrsets of one
NS sub-resolution answer; a malformed A rrset raises mid-way, keeping
the extensions made so far and dropping the rest (caught at 141/144). -/
def extractAnswerAddrs : List RRset → List String
  | [] => []
  | rs :: rest =>
    if rs.rdtype = .a then
      match addrsOfRecords rs.records with
      | none => []
      | some addrs => addrs ++ extractAnswerAddrs rest
    else extractAnswerAddrs rest

/-- Lines 135–145: the addresses contributed by one NS name.  Every
classified failure of the sub-resolution (`NXDomainError`,
`TimeoutError`, `NoRecordError` at 141, anything else at 144) is
swallowed and contributes nothing. -/
def contribAddrs : ResolutionOutcome → List String
  | .failure _ => []
  | .answer r => if r.answer.isEmpty then [] else extractAnswerAddrs r.answer

/-- Lines 128–145: run the sub-resolution for each NS name in order and
concatenate the contributed addresses; `none` if some sub-resolution
exceeded the fuel budget. -/
def collectNSAddrs (sub : String → Option ResolutionOutcome) :
    List String → Option (List String)
  | [] => some []
  | n :: rest =>
    match sub n with
    | none => none
    | some res => (collectNSAddrs sub rest).map (fun t => contribAddrs res ++ t)

/-- Exception plumbing for a nested `return self._iterative_resolve(...)`
inside the `try` of the server loop (lines 95, 109, 148): a returned
answer is returned; a nested `NXDomainError` or `NoRecordError` is
re-raised by line 164; a nested `TimeoutError` or generic
`DNSResolutionError` is caught by the bare `except Exception` at 167,
so the loop continues with the next candidate server (`cont`). -/
def nestedOutcome (res cont : Option ResolutionOutcome) :
    Option ResolutionOutcome :=
  match res with
  | none => none
  | some (.answer r) => some (.answer r)
  | some (.failure .nxdomain) => some (.failure .nxdomain)
  | some (.failure .noRecord) => some (.failure .noRecord)
  | some (.failure .timeout) => cont
  | some (.failure .resolutionFailed) => cont

/-- The engine `DNSQuestResolver._iterative_resolve` (lines 76–182), with the server
loop's running state made explicit: `sawTimeout` is the truth of
`last_timeout_error` and `sawResponse` the truth of
`successful_responses > 0` (the code only ever tests those truths).
Each recursive call — the next candidate server as well as every nested
`_iterative_resolve` — consumes one unit of fuel; `none` is a
computation still unfinished when the budget runs out.  The exception
plumbing of a nested call (matching on its result below) is the
`nestedOutcome` function, see `resolveStep_chase_eq` etc. -/
def resolveStep (T : Transport) :
    Nat → String → RType → List String → Bool → Bool →
    Option ResolutionOutcome
  | _, _, _, [], sawT, sawR => some (.failure (exhaustErr sawT sawR))
  | 0, _, _, _ :: _, _, _ => none
  | fuel + 1, q, t, ns :: rest, sawT, sawR =>
    match T q t ns with
    | .timeout => resolveStep T fuel q t rest true sawR
    | .transportError => resolveStep T fuel q t rest sawT sawR
    | .response resp =>
      if resp.rcode = .nxdomain then some (.failure .nxdomain)
      else
        match answerLoop t resp.answer with
        | .success => some (.answer resp)
        | .malformed => resolveStep T fuel q t rest sawT true
        | .chase tgt =>
          match resolveStep T fuel tgt t ROOT_SERVERS false false with
          | none => none
          | some (.answer r) => some (.answer r)
          | some (.failure .nxdomain) => some (.failure .nxdomain)
          | some (.failure .noRecord) => some (.failure .noRecord)
          | some (.failure .timeout) => resolveStep T fuel q t rest sawT true
          | some (.failure .resolutionFailed) =>
            resolveStep T fuel q t rest sawT true
        | .fallthrough =>
          match glueLoop resp.additional with
          | none => resolveStep T fuel q t rest sawT true
          | some glue =>
            if glue.isEmpty then
              match authorityLoop t false [] resp.authority with
              | .raiseNoRecord => some (.failure .noRecord)
              | .malformed => resolveStep T fuel q t rest sawT true
              | .nothing => resolveStep T fuel q t rest sawT true
              | .nsNames names =>
                match collectNSAddrs
                    (fun n => resolveStep T fuel n .a ROOT_SERVERS false false)
                    names with
                | none => none
                | some addrs =>
                  if addrs.isEmpty then some (.failure .noRecord)
                  else
                    match resolveStep T fuel q t addrs false false with
                    | none => none
                    | some (.answer r) => some (.answer r)
                    | some (.failure .nxdomain) => some (.failure .nxdomain)
                    | some (.failure .noRecord) => some (.failure .noRecord)
                    | some (.failure .timeout) =>
                      resolveStep T fuel q t rest sawT true
                    | some (.failure .resolutionFailed) =>
                      resolveStep T fuel q t rest sawT true
            else
              match resolveStep T fuel q t glue false false with
              | none => none
              | some (.answer r) => some (.answer r)
              | some (.failure .nxdomain) => some (.failure .nxdomain)
              | some (.failure .noRecord) => some (.failure .noRecord)
              | some (.failure .timeout) => resolveStep T fuel q t rest sawT true
              | some (.failure .resolutionFailed) =>
                resolveStep T fuel q t rest sawT true

/-- Entry into `_iterative_resolve`: `last_timeout_error = None` and
`successful_responses = 0` (lines 77–78). -/
def iterativeResolve (fuel : Nat) (T : Transport) (qname : String)
    (qtype : RType) (nameservers : List String) : Option ResolutionOutcome :=
  resolveStep T fuel qname qtype nameservers false false

/-- Test `domain.endswith(".")` (line 60): the last character is a dot. -/
def endsWithDot (d : String) : Bool := d.data.getLast? = some '.'

/-- The trailing-dot normalization of `resolve`, lines 60–61. -/
def normalizeDomain (d : String) : String :=
  if endsWithDot d then d else d ++ "."

/-- Top level `DNSQuestResolver.resolve` (lines 57–74): normalize the domain, then
run the iterative resolution for type A from the root servers.  The
`except` clauses at 70–74 re-raise the three specific errors and re-wrap
anything else as the generic `DNSResolutionError`, so the failure kind
is unchanged. -/
def resolve (T : Transport) (fuel : Nat) (domain : String) :
    Option ResolutionOutcome :=
  iterativeResolve fuel T (normalizeDomain domain) .a ROOT_SERVERS

/-- The NS-referral branch after the NS names have been collected
(lines 126–153), as a function of the aggregated address set. -/
def nsBranch (subAddrs : Option (List String))
    (runAddrs : List String → Option ResolutionOutcome)
    (cont : Option ResolutionOutcome) : Option ResolutionOutcome :=
  match subAddrs with
  | none => none
  | some addrs =>
    if addrs.isEmpty then some (.failure .noRecord)
    else nestedOutcome (runAddrs addrs) cont

/-! ### Unfolding lemmas for one server iteration -/

theorem resolveStep_nil (T : Transport) (fuel : Nat) (q : String) (t : RType)
    (sawT sawR : Bool) :
    resolveStep T fuel q t [] sawT sawR =
      some (.failure (exhaustErr sawT sawR)) := by
  cases fuel <;> rfl

theorem resolveStep_timeout (T : Transport) (fuel : Nat) (q : String)
    (t : RType) (ns : String) (rest : List String) (sawT sawR : Bool)
    (h : T q t ns = .timeout) :
    resolveStep T (fuel + 1) q t (ns :: rest) sawT sawR =
      resolveStep T fuel q t rest true sawR := by
  simp only [resolveStep, h]

theorem resolveStep_transportError (T : Transport) (fuel : Nat) (q : String)
    (t : RType) (ns : String) (rest : List String) (sawT sawR : Bool)
    (h : T q t ns = .transportError) :
    resolveStep T (fuel + 1) q t (ns :: rest) sawT sawR =
      resolveStep T fuel q t rest sawT sawR := by
  simp only [resolveStep, h]

theorem resolveStep_nxdomain (T : Transport) (fuel : Nat) (q : String)
    (t : RType) (ns : String) (rest : List String) (sawT sawR : Bool)
    (resp : Response)
    (h1 : T q t ns = .response resp) (h2 : resp.rcode = .nxdomain) :
    resolveStep T (fuel + 1) q t (ns :: rest) sawT sawR =
      some (.failure .nxdomain) := by
  simp only [resolveStep, h1, if_pos h2]

theorem resolveStep_success (T : Transport) (fuel : Nat) (q : String)
    (t : RType) (ns : String) (rest : List String) (sawT sawR : Bool)
    (resp : Response)
    (h1 : T q t ns = .response resp) (h2 : resp.rcode ≠ .nxdomain)
    (h3 : answerLoop t resp.answer = .success) :
    resolveStep T (fuel + 1) q t (ns :: rest) sawT sawR =
      some (.answer resp) := by
  simp only [resolveStep, h1, if_neg h2, h3]

theorem resolveStep_answerMalformed (T : Transport) (fuel : Nat) (q : String)
    (t : RType) (ns : String) (rest : List String) (sawT sawR : Bool)
    (resp : Response)
    (h1 : T q t ns = .response resp) (h2 : resp.rcode ≠ .nxdomain)
    (h3 : answerLoop t resp.answer = .malformed) :
    resolveStep T (fuel + 1) q t (ns :: rest) sawT sawR =
      resolveStep T fuel q t rest sawT true := by
  simp only [resolveStep, h1, if_neg h2, h3]

theorem resolveStep_chase (T : Transport) (fuel : Nat) (q : String)
    (t : RType) (ns : String) (rest : List String) (sawT sawR : Bool)
    (resp : Response) (tgt : String)
    (h1 : T q t ns = .response resp) (h2 : resp.rcode ≠ .nxdomain)
    (h3 : answerLoop t resp.answer = .chase tgt) :
    resolveStep T (fuel + 1) q t (ns :: rest) sawT sawR =
      nestedOutcome (resolveStep T fuel tgt t ROOT_SERVERS false false)
        (resolveStep T fuel q t rest sawT true) := by
  simp only [resolveStep, h1, if_neg h2, h3]
  generalize resolveStep T fuel tgt t ROOT_SERVERS false false = res
  rcases res with _ | res
  · rfl
  · rcases res with r | e
    · rfl
    · cases e <;> rfl

theorem resolveStep_glueMalformed (T : Transport) (fuel : Nat) (q : String)
    (t : RType) (ns : String) (rest : List String) (sawT sawR : Bool)
    (resp : Response)
    (h1 : T q t ns = .response resp) (h2 : resp.rcode ≠ .nxdomain)
    (h3 : answerLoop t resp.answer = .fallthrough)
    (h4 : glueLoop resp.additional = none) :
    resolveStep T (fuel + 1) q t (ns :: rest) sawT sawR =
      resolveStep T fuel q t rest sawT true := by
  simp only [resolveStep, h1, if_neg h2, h3, h4]

theorem resolveStep_glue (T : Transport) (fuel : Nat) (q : String)
    (t : RType) (ns : String) (rest : List String) (sawT sawR : Bool)
    (resp : Response) (glue : List String)
    (h1 : T q t ns = .response resp) (h2 : resp.rcode ≠ .nxdomain)
    (h3 : answerLoop t resp.answer = .fallthrough)
    (h4 : glueLoop resp.additional = some glue)
    (h5 : glue.isEmpty = false) :
    resolveStep T (fuel + 1) q t (ns :: rest) sawT sawR =
      nestedOutcome (resolveStep T fuel q t glue false false)
        (resolveStep T fuel q t rest sawT true) := by
  simp only [resolveStep, h1, if_neg h2, h3, h4, h5]
  simp only [Bool.false_eq_true, if_false]
  generalize resolveStep T fuel q t glue false false = res
  rcases res with _ | res
  · rfl
  · rcases res with r | e
    · rfl
    · cases e <;> rfl

theorem resolveStep_soaRaise (T : Transport) (fuel : Nat) (q : String)
    (t : RType) (ns : String) (rest : List String) (sawT sawR : Bool)
    (resp : Response)
    (h1 : T q t ns = .response resp) (h2 : resp.rcode ≠ .nxdomain)
    (h3 : answerLoop t resp.answer = .fallthrough)
    (h4 : glueLoop resp.additional = some [])
    (h5 : authorityLoop t false [] resp.authority = .raiseNoRecord) :
    resolveStep T (fuel + 1) q t (ns :: rest) sawT sawR =
      some (.failure .noRecord) := by
  simp only [resolveStep, h1, if_neg h2, h3, h4, h5, List.isEmpty_nil, if_true]

theorem resolveStep_authNothing (T : Transport) (fuel : Nat) (q : String)
    (t : RType) (ns : String) (rest : List String) (sawT sawR : Bool)
    (resp : Response)
    (h1 : T q t ns = .response resp) (h2 : resp.rcode ≠ .nxdomain)
    (h3 : answerLoop t resp.answer = .fallthrough)
    (h4 : glueLoop resp.additional = some [])
    (h5 : authorityLoop t false [] resp.authority = .nothing) :
    resolveStep T (fuel + 1) q t (ns :: rest) sawT sawR =
      resolveStep T fuel q t rest sawT true := by
  simp only [resolveStep, h1, if_neg h2, h3, h4, h5, List.isEmpty_nil, if_true]

theorem resolveStep_authMalformed (T : Transport) (fuel : Nat) (q : String)
    (t : RType) (ns : String) (rest : List String) (sawT sawR : Bool)
    (resp : Response)
    (h1 : T q t ns = .response resp) (h2 : resp.rcode ≠ .nxdomain)
    (h3 : answerLoop t resp.answer = .fallthrough)
    (h4 : glueLoop resp.additional = some [])
    (h5 : authorityLoop t false [] resp.authority = .malformed) :
    resolveStep T (fuel + 1) q t (ns :: rest) sawT sawR =
      resolveStep T fuel q t rest sawT true := by
  simp only [resolveStep, h1, if_neg h2, h3, h4, h5, List.isEmpty_nil, if_true]

theorem resolveStep_nsNames (T : Transport) (fuel : Nat) (q : String)
    (t : RType) (ns : String) (rest : List String) (sawT sawR : Bool)
    (resp : Response) (names : List String)
    (h1 : T q t ns = .response resp) (h2 : resp.rcode ≠ .nxdomain)
    (h3 : answerLoop t resp.answer = .fallthrough)
    (h4 : glueLoop resp.additional = some [])
    (h5 : authorityLoop t false [] resp.authority = .nsNames names) :
    resolveStep T (fuel + 1) q t (ns :: rest) sawT sawR =
      nsBranch
        (collectNSAddrs
          (fun n => resolveStep T fuel n .a ROOT_SERVERS false false) names)
        (fun addrs => resolveStep T fuel q t addrs false false)
        (resolveStep T fuel q t rest sawT true) := by
  simp only [resolveStep, h1, if_neg h2, h3, h4, h5, List.isEmpty_nil, if_true]
  generalize collectNSAddrs
    (fun n => resolveStep T fuel n .a ROOT_SERVERS false false) names = sub
  rcases sub with _ | addrs
  · rfl
  · simp only [nsBranch]
    by_cases he : addrs.isEmpty
    · simp only [he, if_true]
    · simp only [he, if_false]
      generalize resolveStep T fuel q t addrs false false = res
      rcases res with _ | res
      · rfl
      · rcases res with r | e
        · rfl
        · cases e <;> rfl

/-! ### C1 — recursion depth is not bounded -/

/-- A transport behavior in which every server answers every query with
a single CNAME rrset whose target is the queried name itself: a cyclic
CNAME chain of length one. -/
def cycT : Transport := fun q _ _ =>
  .response ⟨.noerror, [⟨.cname, [.cname q]⟩], [], []⟩

/-- Resolution of `(q, t, servers)` under transport `T` completes (with
an answer or a classified failure) within some recursion budget. -/
def TerminatesOn (T : Transport) (q : String) (t : RType)
    (servers : List String) : Prop :=
  ∃ fuel r, iterativeResolve fuel T q t servers = some r

theorem cycT_runs_forever (fuel : Nat) (q : String) (servers : List String)
    (hne : servers ≠ []) :
    resolveStep cycT fuel q .a servers false false = none := by
  induction fuel generalizing q servers with
  | zero =>
    cases servers with
    | nil => exact absurd rfl hne
    | cons ns rest => rfl
  | succ fuel ih =>
    cases servers with
    | nil => exact absurd rfl hne
    | cons ns rest =>
      have h1 : cycT q .a ns =
          .response ⟨.noerror, [⟨.cname, [.cname q]⟩], [], []⟩ := rfl
      have h3 : answerLoop .a [RRset.mk .cname [.cname q]] = .chase q := rfl
      rw [resolveStep_chase cycT fuel q .a ns rest false false
        ⟨.noerror, [⟨.cname, [.cname q]⟩], [], []⟩ q h1 (by simp) h3]
      rw [ih q ROOT_SERVERS (by simp [ROOT_SERVERS])]
      rfl

/-- C1 (counterexample): `_iterative_resolve` is *not* total for every
transport behavior.  Under the cyclic-CNAME transport `cycT`, the
top-level resolution of `example.com.` from the root server set never
completes — no recursion budget, however large, suffices — so no
enforced recursion-depth limit exists and no terminal classified
failure is ever raised for this input. -/
theorem c1_counterexample :
    ¬ TerminatesOn cycT "example.com." .a ROOT_SERVERS := by
  rintro ⟨fuel, r, hr⟩
  rw [iterativeResolve,
    cycT_runs_forever fuel "example.com." ROOT_SERVERS
      (by simp [ROOT_SERVERS])] at hr
  exact Option.noConfusion hr

/-- C1 (amended): the code enforces no recursion-depth bound.  There is
a transport behavior — every response a one-step cyclic CNAME — under
which every recursion budget `fuel` is exhausted without `resolve`
reaching an answer or a terminal classified failure: the recursion
(CNAME chases restarted from the root set) continues without limit
instead of raising a depth-exceeded failure. -/
theorem c1_no_depth_bound (fuel : Nat) :
    iterativeResolve fuel cycT "example.com." .a ROOT_SERVERS = none :=
  cycT_runs_forever fuel "example.com." ROOT_SERVERS (by simp [ROOT_SERVERS])

/-! ### C2 — requested-type answer vs. CNAME: answer-section order decides -/

/-- A decisive response whose answer section holds a CNAME rrset first
and an rrset of the requested type (A) second. -/
def c2RespCnameFirst : Response :=
  ⟨.noerror, [⟨.cname, [.cname "target.example."]⟩, ⟨.a, [.a "1.1.1.1"]⟩],
    [], []⟩

/-- The answer the chased CNAME target resolves to. -/
def c2RespTarget : Response :=
  ⟨.noerror, [⟨.a, [.a "9.9.9.9"]⟩], [], []⟩

/-- Transport: the queried server answers `cex.example.` with
`c2RespCnameFirst`; every server answers the chase target with
`c2RespTarget`. -/
def c2T : Transport := fun q _ _ =>
  if q = "cex.example." then .response c2RespCnameFirst
  else .response c2RespTarget

/-- C2 (counterexample): the engine receives a decisive response whose
answer section contains an rrset of the requested type A (second
position), yet does not return that response: because a CNAME rrset
precedes it, the engine chases the CNAME and returns the target's
response instead.  Classification 3b does *not* take priority over 3c
regardless of rrset order. -/
theorem c2_counterexample :
    (∃ rs, rs ∈ c2RespCnameFirst.answer ∧ rs.rdtype = .a) ∧
    iterativeResolve 10 c2T "cex.example." .a ["s0"] =
      some (.answer c2RespTarget) ∧
    c2RespTarget ≠ c2RespCnameFirst := by
  refine ⟨⟨⟨.a, [.a "1.1.1.1"]⟩, by simp [c2RespCnameFirst], rfl⟩, by decide,
    by decide⟩

/-- C2 (amended): the answer-section classification follows rrset order.
A record of the requested type is returned as an immediate success
exactly when no CNAME rrset precedes it in the answer section; if a
(well-formed) CNAME rrset comes first, the engine chases the CNAME even
when a record of the requested type appears later in the same answer
section. -/
theorem c2_order_decides :
    (∀ (t : RType) (l1 l2 : List RRset) (rs : RRset),
      rs.rdtype = t → t ≠ .cname →
      (∀ r ∈ l1, r.rdtype ≠ .cname ∧ r.rdtype ≠ t) →
      answerLoop t (l1 ++ rs :: l2) = .success) ∧
    (∀ (t : RType) (l1 l2 : List RRset) (rs : RRset) (tgt : String),
      rs.rdtype = .cname → firstTarget rs = some tgt →
      (∀ r ∈ l1, r.rdtype ≠ .cname ∧ r.rdtype ≠ t) →
      answerLoop t (l1 ++ rs :: l2) = .chase tgt) := by
  constructor
  · intro t l1 l2 rs hrs ht hl1
    induction l1 with
    | nil =>
      simp only [List.nil_append, answerLoop]
      rw [if_neg (by rw [hrs]; exact ht), if_pos hrs]
    | cons r l1 ih =>
      obtain ⟨hc, hq⟩ := hl1 r (List.mem_cons_self r l1)
      simp only [List.cons_append, answerLoop, if_neg hc, if_neg hq]
      exact ih fun r hr => hl1 r (List.mem_cons_of_mem _ hr)
  · intro t l1 l2 rs tgt hrs htgt hl1
    induction l1 with
    | nil =>
      simp only [List.nil_append, answerLoop, if_pos hrs, htgt]
    | cons r l1 ih =>
      obtain ⟨hc, hq⟩ := hl1 r (List.mem_cons_self r l1)
      simp only [List.cons_append, answerLoop, if_neg hc, if_neg hq]
      exact ih fun r hr => hl1 r (List.mem_cons_of_mem _ hr)

/-- C2 witness: both halves of `c2_order_decides` at concrete inputs —
with the A rrset first the loop succeeds; with the CNAME rrset first
(and the very same A rrset behind it) the loop chases instead. -/
theorem c2_order_decides_witness :
    answerLoop .a [⟨.a, [.a "1.1.1.1"]⟩, ⟨.cname, [.cname "t."]⟩] =
      .success ∧
    answerLoop .a [⟨.cname, [.cname "t."]⟩, ⟨.a, [.a "1.1.1.1"]⟩] =
      .chase "t." :=
  ⟨c2_order_decides.1 .a [] [⟨.cname, [.cname "t."]⟩] ⟨.a, [.a "1.1.1.1"]⟩
      rfl (by decide) (by simp),
    c2_order_decides.2 .a [] [⟨.a, [.a "1.1.1.1"]⟩] ⟨.cname, [.cname "t."]⟩
      "t." rfl rfl (by simp)⟩

/-! ### C3 — the SOA-only test is order-dependent -/

theorem authorityLoop_found_ne_raise (t : RType) (auth : List RRset)
    (acc : List String) :
    authorityLoop t true acc auth ≠ .raiseNoRecord := by
  induction auth generalizing acc with
  | nil =>
    simp only [authorityLoop]
    split <;> simp
  | cons rs rest ih =>
    simp only [authorityLoop]
    by_cases hns : rs.rdtype = .ns
    · rw [if_pos hns]
      rcases hts : targetsOfRecords rs.records with _ | ts
      · simp
      · exact ih (acc ++ ts)
    · rw [if_neg hns]
      by_cases hsoa : rs.rdtype = .soa
      · rw [if_pos hsoa]
        simp only [Bool.not_true, Bool.false_and, Bool.false_eq_true,
          if_false]
        exact ih acc
      · rw [if_neg hsoa]
        exact ih acc

theorem authorityLoop_raise_iff (t : RType) (auth : List RRset)
    (acc : List String) :
    authorityLoop t false acc auth = .raiseNoRecord ↔
      (t = .a ∧ ∃ l1 rs l2, auth = l1 ++ rs :: l2 ∧ rs.rdtype = .soa ∧
        ∀ r ∈ l1, r.rdtype ≠ .ns) := by
  induction auth generalizing acc with
  | nil =>
    simp only [authorityLoop]
    constructor
    · intro h
      split at h <;> exact absurd h (by simp)
    · rintro ⟨-, l1, rs, l2, heq, -, -⟩
      cases l1 <;> simp at heq
  | cons rs rest ih =>
    have noSplit : rs.rdtype ≠ .soa →
        (∀ l1 rs' l2, rest = l1 ++ rs' :: l2 → rs'.rdtype = .soa →
          (∀ r ∈ l1, r.rdtype ≠ .ns) → rs.rdtype ≠ .ns) →
        ((t = .a ∧ ∃ l1 rs' l2, rs :: rest = l1 ++ rs' :: l2 ∧
            rs'.rdtype = .soa ∧ ∀ r ∈ l1, r.rdtype ≠ .ns) ↔
          (t = .a ∧ ∃ l1 rs' l2, rest = l1 ++ rs' :: l2 ∧
            rs'.rdtype = .soa ∧ ∀ r ∈ l1, r.rdtype ≠ .ns)) := by
      intro hsoa hok
      constructor
      · rintro ⟨ht, l1, rs', l2, heq, hrs', hfree⟩
        refine ⟨ht, ?_⟩
        cases l1 with
        | nil =>
          simp only [List.nil_append, List.cons.injEq] at heq
          exact absurd (heq.1 ▸ hrs') hsoa
        | cons a l1 =>
          simp only [List.cons_append, List.cons.injEq] at heq
          exact ⟨l1, rs', l2, heq.2, hrs',
            fun r hr => hfree r (heq.1 ▸ List.mem_cons_of_mem a hr)⟩
      · rintro ⟨ht, l1, rs', l2, heq, hrs', hfree⟩
        exact ⟨ht, rs :: l1, rs', l2, by rw [heq, List.cons_append],
          hrs', fun r hr => by
            rcases List.mem_cons.mp hr with h | h
            · exact h ▸ hok l1 rs' l2 heq hrs' hfree
            · exact hfree r h⟩
    simp only [authorityLoop]
    by_cases hns : rs.rdtype = .ns
    · rw [if_pos hns]
      have rhsFalse : ¬ (t = .a ∧ ∃ l1 rs' l2,
          rs :: rest = l1 ++ rs' :: l2 ∧ rs'.rdtype = .soa ∧
          ∀ r ∈ l1, r.rdtype ≠ .ns) := by
        rintro ⟨-, l1, rs', l2, heq, hrs', hfree⟩
        cases l1 with
        | nil =>
          simp only [List.nil_append, List.cons.injEq] at heq
          rw [heq.1] at hns
          rw [hns] at hrs'
          exact RType.noConfusion hrs'
        | cons a l1 =>
          simp only [List.cons_append, List.cons.injEq] at heq
          exact hfree rs (heq.1 ▸ List.mem_cons_self rs l1) hns
      rcases hts : targetsOfRecords rs.records with _ | ts
      · simp only [rhsFalse, iff_false]
        simp
      · simp only [rhsFalse, iff_false]
        exact authorityLoop_found_ne_raise t rest (acc ++ ts)
    · rw [if_neg hns]
      by_cases hsoa : rs.rdtype = .soa
      · rw [if_pos hsoa]
        by_cases ht : t = .a
        · subst ht
          rw [if_pos (by simp)]
          constructor
          · intro _
            exact ⟨rfl, [], rs, rest, rfl, hsoa, by simp⟩
          · intro _
            rfl
        · have : (!false && decide (t = .a)) = false := by
            simp [ht]
          rw [this, if_neg (by simp)]
          rw [ih acc]
          constructor
          · rintro ⟨h, -⟩
            exact absurd h ht
          · rintro ⟨h, -⟩
            exact absurd h ht
      · rw [if_neg hsoa]
        rw [ih acc]
        exact (noSplit hsoa (fun _ _ _ _ _ _ => hns)).symm

/-- The authority section of the counterexample response: an SOA rrset
*followed by* an NS rrset, as a server is free to order them. -/
def c3Authority : List RRset :=
  [⟨.soa, [.soa]⟩, ⟨.ns, [.ns "ns.cex.example."]⟩]

/-- Transport for the counterexample: the queried server `s0` answers
with `c3Authority` (no answer, no additional); every root server
resolves the NS name `ns.cex.example.` to `5.5.5.5`; and `5.5.5.5`
answers the original query with an A record — so the NS referral, had
it been taken, would have succeeded. -/
def c3T : Transport := fun q _ s =>
  if q = "cex.example." && s = "s0" then
    .response ⟨.noerror, [], c3Authority, []⟩
  else if q = "ns.cex.example." then
    .response ⟨.noerror, [⟨.a, [.a "5.5.5.5"]⟩], [], []⟩
  else if q = "cex.example." && s = "5.5.5.5" then
    .response ⟨.noerror, [⟨.a, [.a "7.7.7.7"]⟩], [], []⟩
  else .timeout

/-- Variant of `c3T` with the two authority rrsets in the opposite order
(NS before SOA). -/
def c3Tswapped : Transport := fun q t s =>
  if q = "cex.example." && s = "s0" then
    .response ⟨.noerror, [], c3Authority.reverse, []⟩
  else c3T q t s

/-- C3 (counterexample): the authority section contains an NS rrset —
in second position, after an SOA rrset — yet the engine raises
`NoRecordError` instead of proceeding to the NS referral; with the two
rrsets swapped (NS first) the very same servers yield a successful
referral.  So `NoRecordError` is *not* raised "only if no NS record is
anywhere in the section". -/
theorem c3_counterexample :
    (∃ rs, rs ∈ c3Authority ∧ rs.rdtype = .ns) ∧
    iterativeResolve 30 c3T "cex.example." .a ["s0"] =
      some (.failure .noRecord) ∧
    iterativeResolve 30 c3Tswapped "cex.example." .a ["s0"] =
      some (.answer ⟨.noerror, [⟨.a, [.a "7.7.7.7"]⟩], [], []⟩) := by
  refine ⟨⟨⟨.ns, [.ns "ns.cex.example."]⟩, by simp [c3Authority], rfl⟩,
    by decide, by decide⟩

/-- C3 (amended): at the authority-classification point with requested
type scanned against an authority section, `NoRecordError` is raised iff
the requested type is A and the section contains an SOA rrset that no
NS rrset *precedes*: the `ns_records_found` flag is set in scan order,
so an NS rrset occurring after the first SOA rrset does not prevent the
failure, while any NS rrset before every SOA rrset routes the engine to
the referral branch instead. -/
theorem c3_soa_raise_iff (t : RType) (auth : List RRset) :
    authorityLoop t false [] auth = .raiseNoRecord ↔
      (t = .a ∧ ∃ l1 rs l2, auth = l1 ++ rs :: l2 ∧ rs.rdtype = .soa ∧
        ∀ r ∈ l1, r.rdtype ≠ .ns) :=
  authorityLoop_raise_iff t auth []

/-! ### C4 — NXDOMAIN is terminal and propagates -/

/-- C4: if a queried server returns status NXDOMAIN, the engine raises
`NXDomainError` at once.  First conjunct: the step's outcome is
`failure nxdomain` for *every* list of remaining candidate servers
(lines 86–88, re-raised at 164–166), so no remaining candidate is
queried.  Second and third conjuncts: an `NXDomainError` produced by
the nested engine call of a CNAME chase (line 95) or of a glue hop
(line 109) is re-raised unmodified by the enclosing level, so by
induction on levels it propagates to the top-level `resolve` caller,
whose handler (lines 70–72) re-raises it unchanged. -/
theorem c4_nxdomain_terminal :
    (∀ (T : Transport) (fuel : Nat) (q : String) (t : RType) (ns : String)
      (rest : List String) (sawT sawR : Bool) (resp : Response),
      T q t ns = .response resp → resp.rcode = .nxdomain →
      resolveStep T (fuel + 1) q t (ns :: rest) sawT sawR =
        some (.failure .nxdomain)) ∧
    (∀ (T : Transport) (fuel : Nat) (q : String) (t : RType) (ns : String)
      (rest : List String) (sawT sawR : Bool) (resp : Response)
      (tgt : String),
      T q t ns = .response resp → resp.rcode ≠ .nxdomain →
      answerLoop t resp.answer = .chase tgt →
      resolveStep T fuel tgt t ROOT_SERVERS false false =
        some (.failure .nxdomain) →
      resolveStep T (fuel + 1) q t (ns :: rest) sawT sawR =
        some (.failure .nxdomain)) ∧
    (∀ (T : Transport) (fuel : Nat) (q : String) (t : RType) (ns : String)
      (rest : List String) (sawT sawR : Bool) (resp : Response)
      (glue : List String),
      T q t ns = .response resp → resp.rcode ≠ .nxdomain →
      answerLoop t resp.answer = .fallthrough →
      glueLoop resp.additional = some glue → glue.isEmpty = false →
      resolveStep T fuel q t glue false false =
        some (.failure .nxdomain) →
      resolveStep T (fuel + 1) q t (ns :: rest) sawT sawR =
        some (.failure .nxdomain)) := by
  refine ⟨fun T fuel q t ns rest sawT sawR resp h1 h2 =>
      resolveStep_nxdomain T fuel q t ns rest sawT sawR resp h1 h2,
    fun T fuel q t ns rest sawT sawR resp tgt h1 h2 h3 h4 => ?_,
    fun T fuel q t ns rest sawT sawR resp glue h1 h2 h3 h4 h5 h6 => ?_⟩
  · rw [resolveStep_chase T fuel q t ns rest sawT sawR resp tgt h1 h2 h3,
      h4]
    rfl
  · rw [resolveStep_glue T fuel q t ns rest sawT sawR resp glue
      h1 h2 h3 h4 h5, h6]
    rfl

/-- An authoritative NXDOMAIN response. -/
def c4RespNx : Response := ⟨.nxdomain, [], [], []⟩

/-- Transport for the C4 witness: `nx.example.` gets NXDOMAIN
everywhere; `cn.example.` gets a CNAME to `nx.example.`;
`gl.example.` gets a glue referral to server `9.9.9.8`, which returns
NXDOMAIN for it. -/
def c4T : Transport := fun q _ s =>
  if q = "nx.example." then .response c4RespNx
  else if q = "cn.example." then
    .response ⟨.noerror, [⟨.cname, [.cname "nx.example."]⟩], [], []⟩
  else if q = "gl.example." && s = "s0" then
    .response ⟨.noerror, [], [], [⟨.a, [.a "9.9.9.8"]⟩]⟩
  else if q = "gl.example." && s = "9.9.9.8" then .response c4RespNx
  else .timeout

/-- C4 witness: all three conjuncts of `c4_nxdomain_terminal` at
concrete inputs — a direct NXDOMAIN (with an untouched second candidate
`s1`), an NXDOMAIN surfacing through a CNAME chase, and one surfacing
through a glue hop. -/
theorem c4_nxdomain_terminal_witness :
    resolveStep c4T 5 "nx.example." .a ["s0", "s1"] false false =
      some (.failure .nxdomain) ∧
    resolveStep c4T 5 "cn.example." .a ["s0", "s1"] false false =
      some (.failure .nxdomain) ∧
    resolveStep c4T 5 "gl.example." .a ["s0"] false false =
      some (.failure .nxdomain) :=
  ⟨c4_nxdomain_terminal.1 c4T 4 "nx.example." .a "s0" ["s1"] false false
      c4RespNx rfl rfl,
    c4_nxdomain_terminal.2.1 c4T 4 "cn.example." .a "s0" ["s1"] false false
      ⟨.noerror, [⟨.cname, [.cname "nx.example."]⟩], [], []⟩ "nx.example."
      rfl (by decide) rfl (by decide),
    c4_nxdomain_terminal.2.2 c4T 4 "gl.example." .a "s0" [] false false
      ⟨.noerror, [], [], [⟨.a, [.a "9.9.9.8"]⟩]⟩ ["9.9.9.8"]
      rfl (by decide) rfl rfl rfl (by decide)⟩

/-! ### C5 — exhaustion classification -/

/-- A response that carries nothing actionable for the engine
(spec §4.1 step 3g): not NXDOMAIN, no CNAME or requested-type answer
rrset, no usable glue, and an authority section that neither raises nor
refers — including the Python-exception (malformed) paths, which also
make the loop continue. -/
def respondedNondecisively (t : RType) (r : Response) : Bool :=
  if r.rcode = .nxdomain then false
  else
    match answerLoop t r.answer with
    | .success => false
    | .chase _ => false
    | .malformed => true
    | .fallthrough =>
      match glueLoop r.additional with
      | none => true
      | some [] =>
        match authorityLoop t false [] r.authority with
        | .raiseNoRecord => false
        | .nsNames _ => false
        | .nothing => true
        | .malformed => true
      | some (_ :: _) => false

/-- The query to server `s` yields no decisive classification: a
timeout, a transport error, or a non-decisive response. -/
def nondecisiveServer (T : Transport) (q : String) (t : RType)
    (s : String) : Bool :=
  match T q t s with
  | .timeout => true
  | .transportError => true
  | .response r => respondedNondecisively t r

/-- Server `s` responded at all (`successful_responses` is bumped as
soon as `dns.query.udp` returns, line 84). -/
def respondedAt (T : Transport) (q : String) (t : RType) (s : String) :
    Bool :=
  match T q t s with
  | .response _ => true
  | _ => false

/-- The query to server `s` timed out (`last_timeout_error` is set,
lines 158–163). -/
def timedOutAt (T : Transport) (q : String) (t : RType) (s : String) :
    Bool :=
  match T q t s with
  | .timeout => true
  | _ => false

theorem exhaustErr_eq (aT aR : Bool) :
    exhaustErr aT aR =
      if aR then .noRecord else if aT then .timeout
      else .resolutionFailed := by
  cases aT <;> cases aR <;> rfl

theorem c5_aux (T : Transport) (q : String) (t : RType) :
    ∀ (servers : List String) (fuel : Nat) (sawT sawR : Bool),
    servers.length ≤ fuel →
    (∀ s ∈ servers, nondecisiveServer T q t s = true) →
    resolveStep T fuel q t servers sawT sawR =
      some (.failure (exhaustErr (sawT || servers.any (timedOutAt T q t))
        (sawR || servers.any (respondedAt T q t)))) := by
  intro servers
  induction servers with
  | nil =>
    intro fuel sawT sawR _ _
    rw [resolveStep_nil]
    simp
  | cons s rest ih =>
    intro fuel sawT sawR hlen hnd
    cases fuel with
    | zero => simp at hlen
    | succ fuel =>
      have hlen' : rest.length ≤ fuel := by
        simp only [List.length_cons] at hlen
        omega
      have hnd' : ∀ x ∈ rest, nondecisiveServer T q t x = true :=
        fun x hx => hnd x (List.mem_cons_of_mem s hx)
      have hs := hnd s (List.mem_cons_self s rest)
      rcases hT : T q t s with r | _ | _
      · simp only [nondecisiveServer, hT] at hs
        have hne : r.rcode ≠ .nxdomain := by
          intro hrc
          simp only [respondedNondecisively, hrc, if_pos] at hs
          exact Bool.noConfusion hs
        rcases ha : answerLoop t r.answer with _ | tgt | _ | _
        · simp only [respondedNondecisively, hne, if_false, ha] at hs
          exact Bool.noConfusion hs
        · simp only [respondedNondecisively, hne, if_false, ha] at hs
          exact Bool.noConfusion hs
        · rw [resolveStep_answerMalformed T fuel q t s rest sawT sawR r
            hT hne ha, ih fuel sawT true hlen' hnd']
          simp [List.any_cons, timedOutAt, respondedAt, hT]
        · rcases hg : glueLoop r.additional with _ | glue
          · rw [resolveStep_glueMalformed T fuel q t s rest sawT sawR r
              hT hne ha hg, ih fuel sawT true hlen' hnd']
            simp [List.any_cons, timedOutAt, respondedAt, hT]
          · cases glue with
            | nil =>
              rcases hau : authorityLoop t false [] r.authority
                with _ | names | _ | _
              · simp only [respondedNondecisively, hne, if_false, ha,
                  hg, hau] at hs
                exact Bool.noConfusion hs
              · simp only [respondedNondecisively, hne, if_false, ha,
                  hg, hau] at hs
                exact Bool.noConfusion hs
              · rw [resolveStep_authNothing T fuel q t s rest sawT sawR r
                  hT hne ha hg hau, ih fuel sawT true hlen' hnd']
                simp [List.any_cons, timedOutAt, respondedAt, hT]
              · rw [resolveStep_authMalformed T fuel q t s rest sawT sawR
                  r hT hne ha hg hau, ih fuel sawT true hlen' hnd']
                simp [List.any_cons, timedOutAt, respondedAt, hT]
            | cons a glue' =>
              simp only [respondedNondecisively, hne, if_false, ha,
                hg] at hs
              exact Bool.noConfusion hs
      · rw [resolveStep_timeout T fuel q t s rest sawT sawR hT,
          ih fuel true sawR hlen' hnd']
        simp [List.any_cons, timedOutAt, respondedAt, hT]
      · rw [resolveStep_transportError T fuel q t s rest sawT sawR hT,
          ih fuel sawT sawR hlen' hnd']
        simp [List.any_cons, timedOutAt, respondedAt, hT]

/-- C5: when every candidate server of a step is non-decisive (timeout,
transport error, or a response carrying nothing actionable), the step
terminates with exactly one classified failure, determined by:
`NoRecordError` if at least one server responded at all (even
non-decisively); otherwise `TimeoutError` if at least one timeout was
observed (and hence zero servers responded); otherwise the generic
`DNSResolutionError` (lines 171–182). -/
theorem c5_exhaustion_classification (T : Transport) (q : String)
    (t : RType) (servers : List String) (fuel : Nat)
    (hlen : servers.length ≤ fuel)
    (hnd : ∀ s ∈ servers, nondecisiveServer T q t s = true) :
    iterativeResolve fuel T q t servers =
      some (.failure
        (if servers.any (respondedAt T q t) then .noRecord
         else if servers.any (timedOutAt T q t) then .timeout
         else .resolutionFailed)) := by
  rw [iterativeResolve, c5_aux T q t servers fuel false false hlen hnd]
  simp only [Bool.false_or, exhaustErr_eq]

/-- Transport for the C5 witness: server `t0` times out, server `r0`
responds with an empty (non-decisive) response, any other server fails
at transport level. -/
def c5T : Transport := fun _ _ s =>
  if s = "t0" then .timeout
  else if s = "r0" then .response ⟨.noerror, [], [], []⟩
  else .transportError

/-- C5 witness: the three exhaustion categories at concrete inputs —
one responder present yields `NoRecordError` even though a timeout was
also observed; timeouts with zero responders yield `TimeoutError`;
transport errors only yield the generic `DNSResolutionError`. -/
theorem c5_exhaustion_classification_witness :
    iterativeResolve 5 c5T "w.example." .a ["t0", "r0", "e0"] =
      some (.failure .noRecord) ∧
    iterativeResolve 5 c5T "w.example." .a ["t0", "e0"] =
      some (.failure .timeout) ∧
    iterativeResolve 5 c5T "w.example." .a ["e0"] =
      some (.failure .resolutionFailed) :=
  ⟨(c5_exhaustion_classification c5T "w.example." .a ["t0", "r0", "e0"] 5
      (by decide) (by decide)).trans (by decide),
    (c5_exhaustion_classification c5T "w.example." .a ["t0", "e0"] 5
      (by decide) (by decide)).trans (by decide),
    (c5_exhaustion_classification c5T "w.example." .a ["e0"] 5
      (by decide) (by decide)).trans (by decide)⟩

/-! ### C6 — NS sub-resolution failures are swallowed; empty aggregate
is `NoRecordError` -/

theorem collectNSAddrs_all_failures
    (sub : String → Option ResolutionOutcome) (names : List String)
    (h : ∀ n ∈ names, ∃ e, sub n = some (.failure e)) :
    collectNSAddrs sub names = some [] := by
  induction names with
  | nil => rfl
  | cons n rest ih =>
    obtain ⟨e, he⟩ := h n (List.mem_cons_self n rest)
    rw [collectNSAddrs, he,
      ih (fun x hx => h x (List.mem_cons_of_mem n hx))]
    rfl

/-- C6: in the NS-referral branch every classified failure of an
individual NS-name sub-resolution — `NXDomainError`, `TimeoutError`,
`NoRecordError`, or the generic failure — is swallowed (lines 141–145)
and contributes zero addresses; when all NS names fail this way, the
aggregate is empty and the engine raises `NoRecordError` (line 151),
never `TimeoutError`, even when every sub-resolution individually timed
out (the error kind `e` below is arbitrary per name). -/
theorem c6_ns_failures_swallowed (T : Transport) (fuel : Nat) (q : String)
    (t : RType) (ns : String) (rest : List String) (sawT sawR : Bool)
    (resp : Response) (names : List String)
    (h1 : T q t ns = .response resp) (h2 : resp.rcode ≠ .nxdomain)
    (h3 : answerLoop t resp.answer = .fallthrough)
    (h4 : glueLoop resp.additional = some [])
    (h5 : authorityLoop t false [] resp.authority = .nsNames names)
    (hsub : ∀ n ∈ names, ∃ e,
      resolveStep T fuel n .a ROOT_SERVERS false false =
        some (.failure e)) :
    resolveStep T (fuel + 1) q t (ns :: rest) sawT sawR =
      some (.failure .noRecord) := by
  rw [resolveStep_nsNames T fuel q t ns rest sawT sawR resp names
      h1 h2 h3 h4 h5,
    collectNSAddrs_all_failures _ names hsub]
  rfl

/-- Transport for the C6 witness: the queried server refers
`c6.example.` to the single NS name `ns1.c6.example.`, and every other
query — in particular the sub-resolution of that NS name at each of the
13 root servers — times out. -/
def c6T : Transport := fun q _ _ =>
  if q = "c6.example." then
    .response ⟨.noerror, [], [⟨.ns, [.ns "ns1.c6.example."]⟩], []⟩
  else .timeout

/-- C6 witness: the NS sub-resolution itself fails with `TimeoutError`
(all 13 roots time out), yet the step for `c6.example.` classifies as
`NoRecordError`. -/
theorem c6_ns_failures_swallowed_witness :
    resolveStep c6T 14 "ns1.c6.example." .a ROOT_SERVERS false false =
      some (.failure .timeout) ∧
    resolveStep c6T 15 "c6.example." .a ["s0"] false false =
      some (.failure .noRecord) :=
  ⟨by decide,
    c6_ns_failures_swallowed c6T 14 "c6.example." .a "s0" [] false false
      ⟨.noerror, [], [⟨.ns, [.ns "ns1.c6.example."]⟩], []⟩
      ["ns1.c6.example."] rfl (by decide) rfl rfl rfl
      (fun n hn => by
        rw [List.mem_singleton] at hn
        exact ⟨.timeout, by rw [hn]; decide⟩)⟩

/-! ### C7 — every restart uses the fixed root server set -/

/-- C7: the root server list is the fixed 13-address constant of
lines 38–52 (a Lean `def`, immutable like the never-reassigned Python
class attribute), and both kinds of engine re-entry restart from it:
a CNAME chase resolves the target over `ROOT_SERVERS` (line 96), and
each NS-name-to-address sub-resolution runs over `ROOT_SERVERS`
(line 133) — in both equations the referral-derived candidate set of
the triggering level (`ns :: rest`) survives only as the
continue-with-next-candidate continuation, never as the restart set. -/
theorem c7_restart_from_root :
    ROOT_SERVERS.length = 13 ∧
    (∀ (T : Transport) (fuel : Nat) (q : String) (t : RType) (ns : String)
      (rest : List String) (sawT sawR : Bool) (resp : Response)
      (tgt : String),
      T q t ns = .response resp → resp.rcode ≠ .nxdomain →
      answerLoop t resp.answer = .chase tgt →
      resolveStep T (fuel + 1) q t (ns :: rest) sawT sawR =
        nestedOutcome (resolveStep T fuel tgt t ROOT_SERVERS false false)
          (resolveStep T fuel q t rest sawT true)) ∧
    (∀ (T : Transport) (fuel : Nat) (q : String) (t : RType) (ns : String)
      (rest : List String) (sawT sawR : Bool) (resp : Response)
      (names : List String),
      T q t ns = .response resp → resp.rcode ≠ .nxdomain →
      answerLoop t resp.answer = .fallthrough →
      glueLoop resp.additional = some [] →
      authorityLoop t false [] resp.authority = .nsNames names →
      resolveStep T (fuel + 1) q t (ns :: rest) sawT sawR =
        nsBranch
          (collectNSAddrs
            (fun n => resolveStep T fuel n .a ROOT_SERVERS false false)
            names)
          (fun addrs => resolveStep T fuel q t addrs false false)
          (resolveStep T fuel q t rest sawT true)) :=
  ⟨rfl, resolveStep_chase, resolveStep_nsNames⟩

/-- Transport for the C7 witness: a CNAME referral and an NS referral. -/
def c7T : Transport := fun q _ _ =>
  if q = "c7a.example." then
    .response ⟨.noerror, [⟨.cname, [.cname "c7b.example."]⟩], [], []⟩
  else if q = "c7c.example." then
    .response ⟨.noerror, [], [⟨.ns, [.ns "ns.c7.example."]⟩], []⟩
  else .timeout

/-- C7 witness: the two restart equations at concrete inputs — the
chase of `c7b.example.` and the NS sub-resolutions both run over
`ROOT_SERVERS`, not over the triggering candidate set `["s0"]`. -/
theorem c7_restart_from_root_witness :
    resolveStep c7T 5 "c7a.example." .a ["s0"] false false =
      nestedOutcome (resolveStep c7T 4 "c7b.example." .a ROOT_SERVERS
        false false)
        (resolveStep c7T 4 "c7a.example." .a [] false true) ∧
    resolveStep c7T 5 "c7c.example." .a ["s0"] false false =
      nsBranch
        (collectNSAddrs
          (fun n => resolveStep c7T 4 n .a ROOT_SERVERS false false)
          ["ns.c7.example."])
        (fun addrs => resolveStep c7T 4 "c7c.example." .a addrs
          false false)
        (resolveStep c7T 4 "c7c.example." .a [] false true) :=
  ⟨c7_restart_from_root.2.1 c7T 4 "c7a.example." .a "s0" [] false false
      ⟨.noerror, [⟨.cname, [.cname "c7b.example."]⟩], [], []⟩
      "c7b.example." rfl (by decide) rfl,
    c7_restart_from_root.2.2 c7T 4 "c7c.example." .a "s0" [] false false
      ⟨.noerror, [], [⟨.ns, [.ns "ns.c7.example."]⟩], []⟩
      ["ns.c7.example."] rfl (by decide) rfl rfl rfl⟩

/-! ### C8 — glue step: next server set is exactly the additional-section
A addresses, with priority over authority processing -/

/-- The spec's description of the glue server set: "exactly the
addresses of the additional-section A rrsets", in section order.  This
is the reference definition the implementation's `glueLoop` is compared
against. -/
def specGlueAddrs : List RRset → List String
  | [] => []
  | rs :: rest =>
    (if rs.rdtype = .a then rs.records.filterMap RData.addressOf else [])
      ++ specGlueAddrs rest

theorem addrsOfRecords_eq_filterMap (recs : List RData)
    (h : ∀ r ∈ recs, (RData.addressOf r).isSome = true) :
    addrsOfRecords recs = some (recs.filterMap RData.addressOf) := by
  induction recs with
  | nil => rfl
  | cons r rest ih =>
    obtain ⟨a, ha⟩ := Option.isSome_iff_exists.mp
      (h r (List.mem_cons_self r rest))
    rw [addrsOfRecords, ha,
      ih (fun x hx => h x (List.mem_cons_of_mem r hx))]
    simp [List.filterMap_cons, ha]

/-- C8: for a decisive response with no usable answer whose additional
section yields at least one address, the engine recurses with the same
name and type on the glue-derived server set, before and instead of any
authority-section processing (the authority section does not occur in
the equation); and on well-formed additional sections the glue set is
exactly the addresses of the additional-section A rrsets, in order. -/
theorem c8_glue_priority :
    (∀ (T : Transport) (fuel : Nat) (q : String) (t : RType) (ns : String)
      (rest : List String) (sawT sawR : Bool) (resp : Response)
      (glue : List String),
      T q t ns = .response resp → resp.rcode ≠ .nxdomain →
      answerLoop t resp.answer = .fallthrough →
      glueLoop resp.additional = some glue → glue.isEmpty = false →
      resolveStep T (fuel + 1) q t (ns :: rest) sawT sawR =
        nestedOutcome (resolveStep T fuel q t glue false false)
          (resolveStep T fuel q t rest sawT true)) ∧
    (∀ additional : List RRset,
      (∀ rs ∈ additional, rs.rdtype = .a →
        ∀ r ∈ rs.records, (RData.addressOf r).isSome = true) →
      glueLoop additional = some (specGlueAddrs additional)) := by
  refine ⟨resolveStep_glue, fun additional h => ?_⟩
  induction additional with
  | nil => rfl
  | cons rs rest ih =>
    by_cases hrs : rs.rdtype = .a
    · rw [glueLoop, if_pos hrs,
        addrsOfRecords_eq_filterMap rs.records (h rs
          (List.mem_cons_self rs rest) hrs),
        ih (fun x hx ha r hr =>
          h x (List.mem_cons_of_mem rs hx) ha r hr),
        specGlueAddrs, if_pos hrs]
      rfl
    · rw [glueLoop, if_neg hrs,
        ih (fun x hx ha r hr =>
          h x (List.mem_cons_of_mem rs hx) ha r hr),
        specGlueAddrs, if_neg hrs]
      rfl

/-- The additional section used in the C8 witness: two A rrsets around
a non-address rrset. -/
def c8Additional : List RRset :=
  [⟨.a, [.a "7.7.7.8", .a "7.7.7.9"]⟩, ⟨.ns, [.ns "ns.c8.example."]⟩,
    ⟨.a, [.a "7.7.8.0"]⟩]

/-- Transport for the C8 witness: the queried server returns no usable
answer, glue in the additional section, and an authority section whose
SOA-then-NS contents are never consulted. -/
def c8T : Transport := fun q _ _ =>
  if q = "c8.example." then
    .response ⟨.noerror, [], [⟨.soa, [.soa]⟩, ⟨.ns, [.ns "x."]⟩],
      c8Additional⟩
  else .timeout

/-- C8 witness: both conjuncts of `c8_glue_priority` at concrete
inputs — the step recurses on exactly the three additional-section
addresses (same name, same type), ignoring the authority section. -/
theorem c8_glue_priority_witness :
    resolveStep c8T 5 "c8.example." .a ["s0"] false false =
      nestedOutcome (resolveStep c8T 4 "c8.example." .a
        ["7.7.7.8", "7.7.7.9", "7.7.8.0"] false false)
        (resolveStep c8T 4 "c8.example." .a [] false true) ∧
    glueLoop c8Additional = some (specGlueAddrs c8Additional) ∧
    specGlueAddrs c8Additional = ["7.7.7.8", "7.7.7.9", "7.7.8.0"] :=
  ⟨c8_glue_priority.1 c8T 4 "c8.example." .a "s0" [] false false
      ⟨.noerror, [], [⟨.soa, [.soa]⟩, ⟨.ns, [.ns "x."]⟩], c8Additional⟩
      ["7.7.7.8", "7.7.7.9", "7.7.8.0"] rfl (by decide) rfl (by decide)
      rfl,
    c8_glue_priority.2 c8Additional (by decide), by decide⟩

/-! ### C9 — trailing-dot normalization -/

theorem endsWithDot_append_dot (d : String) :
    endsWithDot (d ++ ".") = true := by
  rw [endsWithDot, String.data_append]
  rw [show (".":String).data = ['.'] from rfl, List.getLast?_append_cons]
  decide

/-- C9: for every domain string `d` not ending in a dot, `resolve d` and
`resolve (d ++ ".")` normalize to the identical fully-qualified wire
name (lines 60–63), hence — the transport being a function of the
normalized name — they issue identical queries and return equal
outcomes under identical deterministic server responses. -/
theorem c9_trailing_dot (T : Transport) (fuel : Nat) (d : String)
    (h : endsWithDot d = false) :
    normalizeDomain d = normalizeDomain (d ++ ".") ∧
    resolve T fuel d = resolve T fuel (d ++ ".") := by
  have hn : normalizeDomain d = normalizeDomain (d ++ ".") := by
    rw [normalizeDomain, normalizeDomain, if_neg (by rw [h]; simp),
      if_pos (endsWithDot_append_dot d)]
  exact ⟨hn, by rw [resolve, resolve, hn]⟩

/-- Transport for the C9 witness (all queries time out; the equality is
about the issued wire name, not a particular response pattern). -/
def c9T : Transport := fun _ _ _ => .timeout

/-- C9 witness: `c9_trailing_dot` at `example.com`. -/
theorem c9_trailing_dot_witness :
    normalizeDomain "example.com" = normalizeDomain ("example.com" ++ ".") ∧
    resolve c9T 20 "example.com" = resolve c9T 20 ("example.com" ++ ".") :=
  c9_trailing_dot c9T 20 "example.com" (by decide)

/-! ### C10 — a successful return always carries the requested type -/

theorem answerLoop_success_mem (t : RType) (ans : List RRset)
    (h : answerLoop t ans = .success) :
    ∃ rs, rs ∈ ans ∧ rs.rdtype = t := by
  induction ans with
  | nil => exact absurd h (by simp [answerLoop])
  | cons rs rest ih =>
    by_cases hc : rs.rdtype = .cname
    · rw [answerLoop, if_pos hc] at h
      rcases hft : firstTarget rs with _ | tgt <;> rw [hft] at h <;>
        exact AnswerCase.noConfusion h
    · by_cases hq : rs.rdtype = t
      · exact ⟨rs, List.mem_cons_self rs rest, hq⟩
      · rw [answerLoop, if_neg hc, if_neg hq] at h
        obtain ⟨rs', hmem, hty⟩ := ih h
        exact ⟨rs', List.mem_cons_of_mem rs hmem, hty⟩

theorem nestedOutcome_answer (res cont : Option ResolutionOutcome)
    (resp : Response)
    (h : nestedOutcome res cont = some (.answer resp)) :
    res = some (.answer resp) ∨ cont = some (.answer resp) := by
  rcases res with _ | res
  · exact Option.noConfusion h
  · rcases res with r | e
    · exact Or.inl h
    · cases e
      · exact absurd h (by simp [nestedOutcome])
      · exact Or.inr h
      · exact absurd h (by simp [nestedOutcome])
      · exact Or.inr h

theorem nsBranch_answer (sub : Option (List String))
    (run : List String → Option ResolutionOutcome)
    (cont : Option ResolutionOutcome) (resp : Response)
    (h : nsBranch sub run cont = some (.answer resp)) :
    (∃ addrs, run addrs = some (.answer resp)) ∨
      cont = some (.answer resp) := by
  rcases sub with _ | addrs
  · exact Option.noConfusion h
  · rw [nsBranch] at h
    by_cases he : addrs.isEmpty
    · rw [if_pos he] at h
      exact absurd h (by simp)
    · rw [if_neg he] at h
      rcases nestedOutcome_answer (run addrs) cont resp h with h1 | h2
      · exact Or.inl ⟨addrs, h1⟩
      · exact Or.inr h2

theorem resolveStep_answer_has_type (T : Transport) (t : RType) :
    ∀ (fuel : Nat) (q : String) (servers : List String) (sawT sawR : Bool)
      (resp : Response),
    resolveStep T fuel q t servers sawT sawR = some (.answer resp) →
    ∃ rs, rs ∈ resp.answer ∧ rs.rdtype = t := by
  intro fuel
  induction fuel with
  | zero =>
    intro q servers sawT sawR resp h
    cases servers with
    | nil =>
      rw [resolveStep_nil] at h
      exact absurd h (by simp)
    | cons ns rest => exact Option.noConfusion h
  | succ fuel ih =>
    intro q servers sawT sawR resp h
    cases servers with
    | nil =>
      rw [resolveStep_nil] at h
      exact absurd h (by simp)
    | cons ns rest =>
      rcases hT : T q t ns with r | _ | _
      · by_cases hrc : r.rcode = .nxdomain
        · rw [resolveStep_nxdomain T fuel q t ns rest sawT sawR r
            hT hrc] at h
          exact absurd h (by simp)
        · rcases ha : answerLoop t r.answer with _ | tgt | _ | _
          · rw [resolveStep_success T fuel q t ns rest sawT sawR r
              hT hrc ha] at h
            simp only [Option.some.injEq, ResolutionOutcome.answer.injEq]
              at h
            subst h
            exact answerLoop_success_mem t r.answer ha
          · rw [resolveStep_chase T fuel q t ns rest sawT sawR r tgt
              hT hrc ha] at h
            rcases nestedOutcome_answer _ _ _ h with h1 | h2
            · exact ih tgt ROOT_SERVERS false false resp h1
            · exact ih q rest sawT true resp h2
          · rw [resolveStep_answerMalformed T fuel q t ns rest sawT sawR r
              hT hrc ha] at h
            exact ih q rest sawT true resp h
          · rcases hg : glueLoop r.additional with _ | glue
            · rw [resolveStep_glueMalformed T fuel q t ns rest sawT sawR r
                hT hrc ha hg] at h
              exact ih q rest sawT true resp h
            · cases glue with
              | nil =>
                rcases hau : authorityLoop t false [] r.authority
                  with _ | names | _ | _
                · rw [resolveStep_soaRaise T fuel q t ns rest sawT sawR r
                    hT hrc ha hg hau] at h
                  exact absurd h (by simp)
                · rw [resolveStep_nsNames T fuel q t ns rest sawT sawR r
                    names hT hrc ha hg hau] at h
                  rcases nsBranch_answer _ _ _ _ h with ⟨addrs, h1⟩ | h2
                  · exact ih q addrs false false resp h1
                  · exact ih q rest sawT true resp h2
                · rw [resolveStep_authNothing T fuel q t ns rest sawT sawR
                    r hT hrc ha hg hau] at h
                  exact ih q rest sawT true resp h
                · rw [resolveStep_authMalformed T fuel q t ns rest sawT
                    sawR r hT hrc ha hg hau] at h
                  exact ih q rest sawT true resp h
              | cons a glue' =>
                rw [resolveStep_glue T fuel q t ns rest sawT sawR r
                  (a :: glue') hT hrc ha hg (by simp)] at h
                rcases nestedOutcome_answer _ _ _ h with h1 | h2
                · exact ih q (a :: glue') false false resp h1
                · exact ih q rest sawT true resp h2
      · rw [resolveStep_timeout T fuel q t ns rest sawT sawR hT] at h
        exact ih q rest true sawR resp h
      · rw [resolveStep_transportError T fuel q t ns rest sawT sawR
          hT] at h
        exact ih q rest sawT sawR resp h

/-- C10: whenever `_iterative_resolve` returns a response without
raising, that response's answer section contains an rrset of the
requested type — a successful return is never CNAME-only or empty.
The property holds inductively through every CNAME chase, glue hop and
NS-referral recursion, because the only non-recursive success return
(line 99) is guarded by `rrset.rdtype == qtype`; in particular a
top-level `resolve` success always carries an A rrset. -/
theorem c10_success_postcondition :
    (∀ (T : Transport) (t : RType) (fuel : Nat) (q : String)
      (servers : List String) (sawT sawR : Bool) (resp : Response),
      resolveStep T fuel q t servers sawT sawR = some (.answer resp) →
      ∃ rs, rs ∈ resp.answer ∧ rs.rdtype = t) ∧
    (∀ (T : Transport) (fuel : Nat) (d : String) (resp : Response),
      resolve T fuel d = some (.answer resp) →
      ∃ rs, rs ∈ resp.answer ∧ rs.rdtype = .a) :=
  ⟨fun T t fuel q servers sawT sawR resp h =>
      resolveStep_answer_has_type T t fuel q servers sawT sawR resp h,
    fun T fuel d resp h =>
      resolveStep_answer_has_type T .a fuel (normalizeDomain d)
        ROOT_SERVERS false false resp h⟩

/-- Transport for the C10 witness: every server answers directly with
one A rrset. -/
def c10T : Transport := fun _ _ _ =>
  .response ⟨.noerror, [⟨.a, [.a "3.3.3.3"]⟩], [], []⟩

/-- C10 witness: both conjuncts at a concrete direct-answer run. -/
theorem c10_success_postcondition_witness :
    (∃ rs, rs ∈ (Response.mk .noerror [⟨.a, [.a "3.3.3.3"]⟩] [] []).answer
      ∧ rs.rdtype = RType.a) ∧
    (∃ rs, rs ∈ (Response.mk .noerror [⟨.a, [.a "3.3.3.3"]⟩] [] []).answer
      ∧ rs.rdtype = RType.a) :=
  ⟨c10_success_postcondition.1 c10T .a 1 "w10.example." ["s0"] false false
      ⟨.noerror, [⟨.a, [.a "3.3.3.3"]⟩], [], []⟩ (by decide),
    c10_success_postcondition.2 c10T 14 "w10.example"
      ⟨.noerror, [⟨.a, [.a "3.3.3.3"]⟩], [], []⟩ (by decide)⟩

end DNSQuest
